import Mathlib

/-!
Verification of the ephemeral-VM orchestration layer
(`src/infra/guardrails.py`, `src/infra/ssh_driver.py`,
`src/infra/droplet_controller.py`, `src/infra/os_matrix.py`,
`src/run_single_test.py`, `src/quick_test.py`,
`src/run_comprehensive_test.py`) via a shallow embedding.

Python mutable objects are modelled by explicit state passing; Python
exceptions by `Except`; environment variables and remote collaborators
(the DigitalOcean API, the SSH transport) by explicit oracle parameters.
Python's unbounded `int` is `Int` (or `Nat` for values that are only ever
incremented from 0 in the source).
-/

/-! ### CostGuard (`src/infra/guardrails.py`, lines 12-55) -/

/-- The two environment variables read by `CostGuard.__post_init__`.
`none` means the variable is unset; `some v` means it is set to a string
that `int()` parses to `v`. -/
structure CostGuardEnv where
  MAX_TEST_DROPLETS : Option Int
  MAX_SESSION_MINUTES : Option Int

/-- `CostGuard` dataclass fields that the verified behaviour depends on.
`_start_time` (wall-clock) and `droplet_cost_per_hour` (a float used only
by `estimate_cost`) are omitted: no claim here touches real time or cost. -/
structure CostGuard where
  max_droplets : Int
  max_session_minutes : Int
  _droplets_created : Int
deriving DecidableEq, Repr

namespace CostGuard

/-- Construction of a `CostGuard`: dataclass field initialization
(defaults `max_droplets=6`, `max_session_minutes=60`,
`_droplets_created=0`) followed by `__post_init__` (lines 23-26), which
re-reads the two environment variables with the freshly initialized field
values as `os.getenv` defaults. -/
def init (env : CostGuardEnv) (max_droplets : Int := 6)
    (max_session_minutes : Int := 60) : CostGuard :=
  { max_droplets := env.MAX_TEST_DROPLETS.getD max_droplets
    max_session_minutes := env.MAX_SESSION_MINUTES.getD max_session_minutes
    _droplets_created := 0 }

/-- `check_droplet_limit` (lines 28-30): `self._droplets_created < self.max_droplets`. -/
def check_droplet_limit (g : CostGuard) : Bool :=
  g._droplets_created < g.max_droplets

/-- `record_droplet` (lines 32-34): `self._droplets_created += 1`. -/
def record_droplet (g : CostGuard) : CostGuard :=
  { g with _droplets_created := g._droplets_created + 1 }

end CostGuard

/-! ### SSHDriver.connect (`src/infra/ssh_driver.py`, lines 40-69) -/

/-- Oracle for the underlying `paramiko` authentication attempts:
`attemptErr i = none` means the `i`-th (0-based) call to
`self._client.connect` succeeds; `attemptErr i = some e` means it raises
an `SSHException`/`TimeoutError` rendering as the string `e`. -/
def SSHAttempts := Nat → Option String

/-- The body of `SSHDriver.connect`'s retry loop (lines 56-69), iterated
over the remaining values of `range(retries)`.  Returns the outcome
together with the number of authentication attempts actually made.  On
the final failed attempt (`attempt == retries - 1`) it raises
`ConnectionError(f"Failed to connect after {retries} attempts: {e}")`;
between failed attempts the source sleeps 5 seconds (no modelled effect). -/
def connectLoop (attemptErr : SSHAttempts) (retries : Nat) :
    List Nat → Except String Unit × Nat
  | [] =>
    -- `range(retries)` exhausted without the final-attempt branch firing:
    -- only reachable when `retries = 0`; the source then returns `None`.
    (.ok (), 0)
  | attempt :: rest =>
    match attemptErr attempt with
    | none => (.ok (), 1)
    | some e =>
      if attempt == retries - 1 then
        (.error ("Failed to connect after " ++ toString retries ++ " attempts: " ++ e), 1)
      else
        let r := connectLoop attemptErr retries rest
        (r.1, r.2 + 1)

/-- `SSHDriver.connect(timeout, retries)`: runs `for attempt in
range(retries)`.  The `timeout`/`banner_timeout` arguments only
parameterize the opaque transport and are absorbed into the oracle. -/
def SSHDriver.connect (attemptErr : SSHAttempts) (retries : Nat) :
    Except String Unit × Nat :=
  connectLoop attemptErr retries (List.range retries)

/-! ### SSH key records (`src/infra/droplet_controller.py`, lines 130-143) -/

/-- A provider-side SSH key record (`digitalocean.SSHKey`). -/
structure SSHKey where
  id : Nat
  name : String
  public_key : String
deriving DecidableEq, Repr

/-- The provider's key store as seen through `manager.get_all_sshkeys()`
plus a fresh-id supply for `key.create()` uploads. -/
structure KeyState where
  keys : List SSHKey
  nextId : Nat
deriving DecidableEq, Repr

/-- `DropletController.get_or_create_ssh_key(public_key, name)`
(lines 130-143): scans `get_all_sshkeys()` for a record matching on key
content or name and returns it; otherwise uploads a new record and
returns that.  The third component counts uploads performed by this call
(0 or 1). -/
def get_or_create_ssh_key (st : KeyState) (public_key : String)
    (name : String) : SSHKey × KeyState × Nat :=
  match st.keys.find? (fun k => k.public_key == public_key || k.name == name) with
  | some key => (key, st, 0)
  | none =>
    let key : SSHKey := { id := st.nextId, name := name, public_key := public_key }
    (key, { keys := st.keys ++ [key], nextId := st.nextId + 1 }, 1)

/-! ### DropletController (`src/infra/droplet_controller.py`) -/

/-- A `digitalocean.Droplet` as the controller observes it. -/
structure Droplet where
  id : Nat
  name : String
deriving DecidableEq, Repr

/-- `DropletController` instance state: the `_tracked_droplets` list, plus
the provider's droplet inventory as returned by
`manager.get_all_droplets()` and the provider's fresh-id supply for
`droplet.create()`. -/
structure ControllerState where
  tracked : List Droplet
  provider : List Droplet
  nextId : Nat
deriving DecidableEq, Repr

/-- Python exceptions that cross the functions modelled here.
`attributeError` stands for the `AttributeError` raised when a runner
dereferences a `None` OS target. -/
inductive PyErr where
  | sysExit (code : Nat)
  | timeout (msg : String)
  | connectionError (msg : String)
  | attributeError (msg : String)
deriving DecidableEq, Repr

namespace DropletController

/-- `create(config, wait, timeout)` (lines 45-78) together with
`_wait_for_active` (lines 80-92).  The droplet object is constructed and
`droplet.create()` submitted, then the droplet is appended to
`_tracked_droplets` — and only after that, when `wait` is set, does the
polling loop run.  The poll's outcome is the oracle `becomesActive`:
`true` means some iteration observed `status == "active"` before the
deadline, `false` means the deadline passed and
`TimeoutError(f"Droplet {droplet.name} did not become active")` is
raised.  Either way the state mutation (the append) persists. -/
def create (st : ControllerState) (name : String) (wait : Bool)
    (becomesActive : Bool) : Except PyErr Droplet × ControllerState :=
  let droplet : Droplet := { id := st.nextId, name := name }
  let st := { st with tracked := st.tracked ++ [droplet]
                      provider := st.provider ++ [droplet]
                      nextId := st.nextId + 1 }
  if wait && !becomesActive then
    (.error (.timeout ("Droplet " ++ droplet.name ++ " did not become active")), st)
  else
    (.ok droplet, st)

/-- `destroy` on a live droplet handle (lines 105-107): issues the
provider destroy and removes the droplet from `_tracked_droplets` when
present.  Returns the ids destroyed by the call (always one here). -/
def destroyHandle (st : ControllerState) (d : Droplet) :
    ControllerState × List Nat :=
  ({ st with tracked := st.tracked.filter (· ≠ d)
             provider := st.provider.filter (· ≠ d) }, [d.id])

/-- `destroy` given a string (lines 94-107): scans
`manager.get_all_droplets()` for a droplet whose `name` or `str(id)`
equals the argument; the `for`/`else` returns silently when nothing
matches, otherwise the match is destroyed as a handle. -/
def destroyStr (st : ControllerState) (s : String) :
    ControllerState × List Nat :=
  match st.provider.find? (fun d => d.name == s || toString d.id == s) with
  | none => (st, [])
  | some d => destroyHandle st d

/-- `cleanup` (lines 145-152): best-effort `droplet.destroy()` on every
tracked droplet (individual failures swallowed — the oracle
`destroyFails` says which provider calls raise), then
`_tracked_droplets.clear()`.  Returns the ids for which a destroy call
was attempted (all of them, since a failure never stops the loop). -/
def cleanup (st : ControllerState) (destroyFails : Nat → Bool) :
    ControllerState × List Nat :=
  let attempted := st.tracked.map (·.id)
  let destroyed := st.tracked.filter (fun d => !destroyFails d.id)
  ({ st with tracked := []
             provider := st.provider.filter (fun d => d ∉ destroyed) }, attempted)

end DropletController

/-! ### OSMatrix (`src/infra/os_matrix.py`)

`DEFAULT_TARGETS` is a module-level list of mutable `OSTarget` objects and
`OSMatrix.__init__` copies it with `DEFAULT_TARGETS.copy()` — a shallow
copy: the list cell is fresh but its elements alias the module-level
objects.  To capture that aliasing, `OSTarget` objects live in an explicit
heap (`TargetHeap`, one slot per object, addressed by index) and both
`DEFAULT_TARGETS` and `OSMatrix.targets` are lists of heap addresses. -/

/-- `OSTarget` dataclass (`src/infra/os_matrix.py`, lines 12-20). -/
structure OSTarget where
  name : String
  image : String
  family : String
  package_manager : String
  setup_commands : List String
deriving DecidableEq, Repr

/-- The process heap holding the six module-level `OSTarget` objects;
address `i` is slot `i` of the list. -/
structure TargetHeap where
  store : List OSTarget
deriving DecidableEq, Repr

/-- The `OSTarget` objects created at module load time
(`DEFAULT_TARGETS`, lines 24-82), in source order. -/
def defaultTargetObjects : List OSTarget :=
  [ { name := "ubuntu-24-04", image := "ubuntu-24-04-x64", family := "debian"
      package_manager := "apt"
      setup_commands := ["apt-get update",
        "apt-get install -y python3 python3-pip python3-venv"] }
  , { name := "ubuntu-22-04", image := "ubuntu-22-04-x64", family := "debian"
      package_manager := "apt"
      setup_commands := ["apt-get update",
        "apt-get install -y python3 python3-pip python3-venv"] }
  , { name := "debian-12", image := "debian-12-x64", family := "debian"
      package_manager := "apt"
      setup_commands := ["apt-get update",
        "apt-get install -y python3 python3-pip python3-venv"] }
  , { name := "centos-stream-9", image := "centos-stream-9-x64", family := "rhel"
      package_manager := "dnf"
      setup_commands := ["dnf install -y python3 python3-pip"] }
  , { name := "fedora-42", image := "fedora-42-x64", family := "rhel"
      package_manager := "dnf"
      setup_commands := ["dnf install -y python3 python3-pip"] }
  , { name := "almalinux-9", image := "almalinux-9-x64", family := "rhel"
      package_manager := "dnf"
      setup_commands := ["dnf install -y python3 python3-pip"] } ]

/-- The fresh heap at interpreter start: exactly the module-level objects. -/
def TargetHeap.initial : TargetHeap := ⟨defaultTargetObjects⟩

/-- The module-level binding `DEFAULT_TARGETS`: a list of references to
the heap objects. -/
def DEFAULT_TARGETS : List Nat := List.range defaultTargetObjects.length

/-- Dereference a heap address. -/
def TargetHeap.deref (h : TargetHeap) (r : Nat) : Option OSTarget :=
  h.store[r]?

/-- In-place mutation `target.image = ...` on the object at address `r`. -/
def TargetHeap.setImage (h : TargetHeap) (r : Nat) (img : String) : TargetHeap :=
  ⟨h.store.set r (match h.store[r]? with
    | some t => { t with image := img }
    | none => { name := "", image := img, family := ""
                package_manager := "", setup_commands := [] })⟩

/-- `OSMatrix` instance state: `self.targets` (a list of object
references, produced by the shallow `DEFAULT_TARGETS.copy()`) and
`self._snapshots` (a name → image-id dict, modelled as an association
list). -/
structure OSMatrix where
  targets : List Nat
  _snapshots : List (String × String)
deriving DecidableEq, Repr

namespace OSMatrix

/-- The override loop at the end of `_load_snapshots` (lines 106-109):
`for target in self.targets: if target.name in self._snapshots:
target.image = self._snapshots[target.name]` — mutates the heap objects
in place. -/
def applySnapshots (snaps : List (String × String)) :
    List Nat → TargetHeap → TargetHeap
  | [], h => h
  | r :: rs, h =>
    let h' := match h.deref r with
      | some t =>
        match snaps.lookup t.name with
        | some img => h.setImage r img
        | none => h
      | none => h
    applySnapshots snaps rs h'

/-- `OSMatrix.__init__(snapshot_file)` (lines 88-109).  `snapshotContent`
is `none` when no snapshot file is given or the path does not exist
(`_load_snapshots` is then a no-op on `self._snapshots = {}`), and
`some m` when the file exists and parses to the dict `m`.  Returns the
new instance together with the (possibly mutated) heap. -/
def init (h : TargetHeap) (snapshotContent : Option (List (String × String))) :
    OSMatrix × TargetHeap :=
  let m : OSMatrix := { targets := DEFAULT_TARGETS, _snapshots := [] }
  match snapshotContent with
  | none => (m, h)
  | some snaps =>
    ({ m with _snapshots := snaps }, applySnapshots snaps m.targets h)

/-- The scan loop of `get(name)` (lines 113-115): walk the reference
list in order, returning the first dereferenced target whose `name`
matches. -/
def findTarget (h : TargetHeap) (name : String) : List Nat → Option OSTarget
  | [] => none
  | r :: rs =>
    match h.deref r with
    | some t => if t.name == name then some t else findTarget h name rs
    | none => findTarget h name rs

/-- `get(name)` (lines 111-116): scan `self.targets` in order, returning
the first whose `name` matches, else `None`. -/
def get (m : OSMatrix) (h : TargetHeap) (name : String) : Option OSTarget :=
  findTarget h name m.targets

end OSMatrix

/-! ### Runner embeddings (`src/run_single_test.py`, `src/quick_test.py`,
`src/run_comprehensive_test.py`)

Each runner is a pure function of an environment record describing the
external world (configuration variables, the provider's and transport's
responses) to a Python outcome (`Except PyErr _` — normal return value or
uncaught exception) paired with the final mutable state.  `try/finally`
and `try/except` are compiled to explicit sequencing: the body runs
first, the `finally` function is applied to the resulting state on both
paths, and only then is the body's outcome dispatched.  Wall-clock sleeps,
console prints, report-file writes and the `tempfile` context manager
change no modelled state and are noted in comments where they occur. -/

/-- A remote command's captured result (`SSHDriver.exec` return dict). -/
structure CommandResult where
  stdout : String
  stderr : String
  exit_code : Int
deriving DecidableEq, Repr

/-- One entry of a runner's `results`/`all_results` list. -/
structure CheckResult where
  name : String
  passed : Bool
  details : String
deriving DecidableEq, Repr

/-- Python's `pat in s` substring test (for the nonempty literals used in
the runners). -/
def strContains (s pat : String) : Bool :=
  (s.splitOn pat).length != 1

/-- Mutable state threaded through a runner: the cost guard, the droplet
controller, the provider key store, the local variable `droplet`
(`none` while still unbound), the accumulated check results, and counters
for the externally visible cleanup calls (provider droplet destroys,
`do_key.destroy()` attempts, `list_by_tag` verification queries). -/
structure RunnerState where
  guard : CostGuard
  controller : ControllerState
  keyState : KeyState
  dropletVar : Option Droplet
  results : List CheckResult
  dropletDestroyCalls : Nat
  keyDestroyCalls : Nat
  listByTagCalls : Nat
deriving Repr

/-- Runner state at process start: fresh controller, empty results, no
cleanup calls yet.  The guard is constructed by each runner with its own
limits. -/
def RunnerState.initial (guard : CostGuard) (keys : KeyState) : RunnerState :=
  { guard := guard
    controller := { tracked := [], provider := [], nextId := 0 }
    keyState := keys
    dropletVar := none
    results := []
    dropletDestroyCalls := 0
    keyDestroyCalls := 0
    listByTagCalls := 0 }

/-! #### `run_single_test.run_connectivity_test` (lines 70-212) -/

/-- The external world as `run_connectivity_test` observes it.
`snapshots` is the parsed content of the `SNAPSHOT_FILE` override file
(`none` when absent); `publicKey`/`keyName`/`dropletName` stand for the
generated key material and the timestamp-suffixed names; `keys0` is the
provider's pre-existing SSH-key inventory; `createTimesOut` is the
provisioning-poll oracle; `attemptErr` drives `ssh.connect`
authentication attempts; `exec` maps each remote command string to its
result. -/
structure SingleEnv where
  hasToken : Bool
  guardEnv : CostGuardEnv
  snapshots : Option (List (String × String))
  publicKey : String
  keyName : String
  dropletName : String
  keys0 : KeyState
  createTimesOut : Bool
  attemptErr : SSHAttempts
  exec : String → CommandResult

/-- The four fixed verification commands of `run_connectivity_test`
(lines 158-163). -/
def singleTestCases : List (String × String) :=
  [ ("uname -a", "Basic shell access")
  , ("cat /etc/os-release", "OS verification")
  , ("which apt", "Package manager check")
  , ("systemctl --version", "Systemd check") ]

/-- The check-running loop (lines 165-177): each command's result is
recorded with `passed = (exit_code == 0)` and a 50-character detail
slice; a failing check never aborts the loop. -/
def runSingleChecks (env : SingleEnv) (s : RunnerState) : RunnerState :=
  { s with results := s.results ++ singleTestCases.map (fun c =>
      let r := env.exec c.1
      { name := c.2
        passed := r.exit_code == 0
        details := if r.exit_code == 0 then r.stdout.take 50 else r.stderr.take 50 }) }

/-- The `try` body of `run_connectivity_test` (lines 133-179): SSH
connect with `retries=20` (a `ConnectionError` propagates out), the
cloud-init polling loop (lines 151-155 — sleeps and breaks only, no
recorded result), the four checks, then `ssh.close()`. -/
def singleTryBody (env : SingleEnv) (s : RunnerState) :
    Except PyErr Unit × RunnerState :=
  match (SSHDriver.connect env.attemptErr 20).1 with
  | .error msg => (.error (.connectionError msg), s)
  | .ok () => (.ok (), runSingleChecks env s)

/-- The `finally` block of `run_connectivity_test` (lines 181-191):
`controller.destroy(droplet)` on the live handle, then
`do_key.destroy()` inside its own `try/except: pass`.  Both provider
calls are modelled as succeeding. -/
def singleFinally (droplet : Droplet) (s : RunnerState) : RunnerState :=
  let s := { s with
    controller := (DropletController.destroyHandle s.controller droplet).1
    dropletDestroyCalls := s.dropletDestroyCalls + 1 }
  { s with keyDestroyCalls := s.keyDestroyCalls + 1 }

/-- `run_connectivity_test()` (lines 70-212).  Key structural fact
mirrored from the source: the `droplet = controller.create(...)` call at
line 128 is sequenced *before* the `try` at line 133, so an exception it
raises bypasses the `finally` block entirely.  The `ssh-keygen`
subprocess (lines 104-113, `check=True`) is assumed to succeed and the
report generation (lines 194-203) writes no modelled state. -/
def run_connectivity_test (env : SingleEnv) :
    Except PyErr Unit × RunnerState :=
  -- lines 72-75: missing DIGITALOCEAN_TOKEN → sys.exit(1)
  let s0 := RunnerState.initial (CostGuard.init env.guardEnv 1 30) env.keys0
  if !env.hasToken then (.error (.sysExit 1), s0)
  else
    -- lines 89-94: get_os_matrix() and target lookup
    let mh := OSMatrix.init TargetHeap.initial env.snapshots
    match mh.1.get mh.2 "ubuntu-24-04" with
    | none => (.error (.sysExit 1), s0)
    | some _os_target =>
      -- line 116: upload / dedupe the SSH key
      let kr := get_or_create_ssh_key s0.keyState env.publicKey env.keyName
      let s1 := { s0 with keyState := kr.2.1 }
      -- line 128: droplet creation — outside the try block
      match DropletController.create s1.controller env.dropletName true
          (!env.createTimesOut) with
      | (.error e, cs) =>
        -- the TimeoutError propagates; the finally at line 181 never runs
        (.error e, { s1 with controller := cs })
      | (.ok droplet, cs) =>
        -- line 129: cost_guard.record_droplet()
        let s2 := { s1 with controller := cs
                            dropletVar := some droplet
                            guard := s1.guard.record_droplet }
        -- lines 133-191: try ... finally
        let body := singleTryBody env s2
        let s3 := singleFinally droplet body.2
        match body.1 with
        | .error e => (.error e, s3)
        | .ok () =>
          -- lines 194-212: report and summary prints; return None
          (.ok (), s3)

/-- The process exit code of `python run_single_test.py`: 0 on a normal
return from `run_connectivity_test`, the `sys.exit` argument when that
was called, and 1 for any uncaught exception. -/
def processExitSingle (env : SingleEnv) : Nat :=
  match (run_connectivity_test env).1 with
  | .ok () => 0
  | .error (.sysExit c) => c
  | .error _ => 1

/-! #### `quick_test.main` (lines 22-100) -/

/-- The external world as `quick_test.main` observes it.  `pingOk` is the
`ping` subprocess outcome (its failure is only printed, never recorded). -/
structure QuickEnv where
  hasToken : Bool
  guardEnv : CostGuardEnv
  snapshots : Option (List (String × String))
  dropletName : String
  createTimesOut : Bool
  pingOk : Bool

/-- The `try` body of `quick_test.main` (lines 52-73): droplet creation
*inside* the `try`, `record_droplet`, the 60-second wait, and the ping
check (print-only). -/
def quickTryBody (env : QuickEnv) (s : RunnerState) :
    Except PyErr Unit × RunnerState :=
  match DropletController.create s.controller env.dropletName true
      (!env.createTimesOut) with
  | (.error e, cs) => (.error e, { s with controller := cs })
  | (.ok droplet, cs) =>
    (.ok (), { s with controller := cs
                      dropletVar := some droplet
                      guard := s.guard.record_droplet })

/-- The `finally` block of `quick_test.main` (lines 78-90): an inner
`try: controller.destroy(droplet) except Exception: print`.  When the
`try` body failed before the assignment, `droplet` is unbound and the
destroy line raises `NameError`, which that inner `except` swallows — so
no provider destroy happens, but the block still runs on to the
`list_by_tag` verification query (lines 86-90). -/
def quickFinally (s : RunnerState) : RunnerState :=
  let s := match s.dropletVar with
    | none => s
    | some d =>
      { s with controller := (DropletController.destroyHandle s.controller d).1
               dropletDestroyCalls := s.dropletDestroyCalls + 1 }
  { s with listByTagCalls := s.listByTagCalls + 1 }

/-- `quick_test.main()` (lines 22-100): returns an `int` handed to
`sys.exit`.  The `except Exception: return 1` at lines 74-76 converts any
body exception to the return value 1, after the `finally` has run.  Note
line 42-44: `matrix.get` is used without a `None` check, so a missing
target would raise `AttributeError` (uncaught). -/
def quickTestMain (env : QuickEnv) : Except PyErr Int × RunnerState :=
  -- lines 24-27: missing DIGITALOCEAN_TOKEN → return 1
  let s0 := RunnerState.initial (CostGuard.init env.guardEnv 1 10)
      { keys := [], nextId := 0 }
  if !env.hasToken then (.ok 1, s0)
  else
    let mh := OSMatrix.init TargetHeap.initial env.snapshots
    match mh.1.get mh.2 "ubuntu-24-04" with
    | none => (.error (.attributeError "NoneType has no attribute name"), s0)
    | some _os_target =>
      -- lines 52-90: try ... except ... finally
      let body := quickTryBody env s0
      let s1 := quickFinally body.2
      match body.1 with
      | .error _ => (.ok 1, s1)
      | .ok () =>
        -- lines 92-98: summary prints; line 100: return 0
        (.ok 0, s1)

/-- The process exit code of `python quick_test.py`
(`sys.exit(main())`). -/
def processExitQuick (env : QuickEnv) : Nat :=
  match (quickTestMain env).1 with
  | .ok n => n.toNat
  | .error (.sysExit c) => c
  | .error _ => 1

/-! #### `run_comprehensive_test.main` (lines 93-309) -/

/-- The external world as `run_comprehensive_test.main` observes it. -/
structure CompEnv where
  hasToken : Bool
  hasOpenAIKey : Bool
  guardEnv : CostGuardEnv
  snapshots : Option (List (String × String))
  publicKey : String
  keyName : String
  dropletName : String
  keys0 : KeyState
  createTimesOut : Bool
  attemptErr : SSHAttempts
  exec : String → CommandResult

/-- `test_sysadmin_ai_install(ssh)` (lines 61-90): a throwaway `mkdir`, a
pip install recorded as "Dependency Installation", a best-effort clone,
and the PolicyEngine import probe recorded as "PolicyEngine Import"
(passing only when the exit code is 0 *and* the stdout contains "OK"). -/
def testSysadminAiInstall (env : CompEnv) : List CheckResult :=
  let _ := env.exec "mkdir -p /opt/sysadmin-ai-next"
  let r1 := env.exec "pip3 install openai pydantic click rich httpx thefuzz pyyaml jinja2 -q"
  let dep : CheckResult :=
    { name := "Dependency Installation"
      passed := r1.exit_code == 0
      details := if r1.exit_code == 0 then "pip install" else r1.stderr.take 50 }
  let _ := env.exec "cd /opt && git clone https://github.com/noktafa/sysadmin-ai-next.git 2>/dev/null || true"
  let r2 := env.exec "cd /opt/sysadmin-ai-next && pip3 install -e . -q 2>/dev/null; python3 -c 'from sysadmin_ai.policy.engine import PolicyEngine; print(\"OK\")'"
  let imp : CheckResult :=
    { name := "PolicyEngine Import"
      passed := r2.exit_code == 0 && strContains r2.stdout "OK"
      details := if r2.exit_code == 0 then r2.stdout.take 50 else r2.stderr.take 50 }
  [dep, imp]

/-- `test_openai_api(ssh)` (lines 20-58) as called from line 221, i.e.
with `OPENAI_API_KEY` set: uploads the probe script and records
"OpenAI API Connectivity" (passing only when the exit code is 0 *and*
the stdout contains "successful"). -/
def testOpenaiApi (env : CompEnv) : CheckResult :=
  let r := env.exec "python3 /tmp/test_openai.py"
  { name := "OpenAI API Connectivity"
    passed := r.exit_code == 0 && strContains r.stdout "successful"
    details := if r.exit_code == 0 then r.stdout.take 100 else r.stderr.take 100 }

/-- The `try` body of `run_comprehensive_test.main` (lines 152-224).
The SSH loop at lines 173-181 makes up to 20 calls of
`ssh.connect(timeout=30, retries=1)`, each attempt swallowing its
exception; since the model's transport oracle is time-independent, all
iterations agree with the first, so `connected` is decided by one
`connect` with `retries = 1`.  An unconnected run records a failed
"SSH Connection" check and early-returns 1 (`.ok (some 1)`); a completed
body yields `.ok none`. -/
def compTryBody (env : CompEnv) (s : RunnerState) :
    Except PyErr (Option Int) × RunnerState :=
  -- line 153: droplet creation — inside the try
  match DropletController.create s.controller env.dropletName true
      (!env.createTimesOut) with
  | (.error e, cs) => (.error e, { s with controller := cs })
  | (.ok droplet, cs) =>
    -- line 154: cost_guard.record_droplet(); line 162: 45-second sleep
    let s := { s with controller := cs
                      dropletVar := some droplet
                      guard := s.guard.record_droplet }
    match (SSHDriver.connect env.attemptErr 1).1 with
    | .error _ =>
      -- lines 183-190: record the failure and return 1
      (.ok (some 1), { s with results := s.results ++
        [{ name := "SSH Connection", passed := false
           details := "Could not connect after 20 attempts" }] })
    | .ok () =>
      -- lines 195-211: basic shell access and OS verification
      let r1 := env.exec "uname -a"
      let c1 : CheckResult :=
        { name := "Basic Shell Access"
          passed := r1.exit_code == 0
          details := if r1.exit_code == 0 then r1.stdout.take 50 else "Failed" }
      let r2 := env.exec "grep 'Ubuntu' /etc/os-release"
      let c2 : CheckResult :=
        { name := "OS Verification"
          passed := r2.exit_code == 0
          details := if r2.exit_code == 0 then "Ubuntu 24.04" else "Failed" }
      -- lines 214-222: install checks, then the OpenAI check when keyed
      let installs := testSysadminAiInstall env
      let openai := if env.hasOpenAIKey then [testOpenaiApi env] else []
      -- line 224: ssh.close()
      (.ok none, { s with results := s.results ++ [c1, c2] ++ installs ++ openai })

/-- The `finally` block of `run_comprehensive_test.main` (lines 226-246):
`try: controller.destroy(droplet) except Exception: print` (a `NameError`
from the unbound `droplet` is swallowed here, so no provider destroy
happens on the provisioning-timeout path), then `try: do_key.destroy()
except: pass`, then the `list_by_tag` verification query. -/
def compFinally (s : RunnerState) : RunnerState :=
  let s := match s.dropletVar with
    | none => s
    | some d =>
      { s with controller := (DropletController.destroyHandle s.controller d).1
               dropletDestroyCalls := s.dropletDestroyCalls + 1 }
  let s := { s with keyDestroyCalls := s.keyDestroyCalls + 1 }
  { s with listByTagCalls := s.listByTagCalls + 1 }

/-- `run_comprehensive_test.main()` (lines 93-309): returns the `int`
handed to `sys.exit`.  After the guaranteed `finally`, a completed run
computes `failed = len(all_results) - passed` and returns
`0 if failed == 0 else 1` (lines 259-309); an early `return 1` from
inside the `try` keeps its value; a body exception propagates uncaught. -/
def runComprehensiveMain (env : CompEnv) : Except PyErr Int × RunnerState :=
  -- lines 95-98: missing DIGITALOCEAN_TOKEN → return 1
  let s0 := RunnerState.initial (CostGuard.init env.guardEnv 1 30) env.keys0
  if !env.hasToken then (.ok 1, s0)
  else
    -- lines 119-122: target lookup; `os_target.name` would raise on None
    let mh := OSMatrix.init TargetHeap.initial env.snapshots
    match mh.1.get mh.2 "ubuntu-24-04" with
    | none => (.error (.attributeError "NoneType has no attribute name"), s0)
    | some _os_target =>
      -- lines 129-141: ssh-keygen (assumed to succeed) and key upload
      let kr := get_or_create_ssh_key s0.keyState env.publicKey env.keyName
      let s1 := { s0 with keyState := kr.2.1 }
      -- lines 152-246: try ... finally
      let body := compTryBody env s1
      let s2 := compFinally body.2
      match body.1 with
      | .error e => (.error e, s2)
      | .ok (some ret) => (.ok ret, s2)
      | .ok none =>
        -- lines 249-309: summary and report, then the exit-code computation
        let passedN := s2.results.countP (·.passed)
        let failedN := s2.results.length - passedN
        (.ok (if failedN == 0 then 0 else 1), s2)

/-- The process exit code of `python run_comprehensive_test.py`
(`sys.exit(main())`). -/
def processExitComp (env : CompEnv) : Nat :=
  match (runComprehensiveMain env).1 with
  | .ok n => n.toNat
  | .error (.sysExit c) => c
  | .error _ => 1

/-! ### Concrete environments used as test inputs -/

/-- A healthy world for `run_connectivity_test` except that the droplet
never reaches `active` within the provisioning timeout. -/
def timeoutSingleEnv : SingleEnv :=
  { hasToken := true
    guardEnv := ⟨none, none⟩
    snapshots := none
    publicKey := "ssh-rsa AAAAB3NzaC1yc2E test"
    keyName := "test-key-1700000000"
    dropletName := "sysadmin-ai-next-test-1700000000"
    keys0 := { keys := [], nextId := 0 }
    createTimesOut := true
    attemptErr := fun _ => none
    exec := fun _ => { stdout := "ok", stderr := "", exit_code := 0 } }

/-- The same provisioning-timeout world for `quick_test.main`. -/
def timeoutQuickEnv : QuickEnv :=
  { hasToken := true
    guardEnv := ⟨none, none⟩
    snapshots := none
    dropletName := "quick-test-1700000000"
    createTimesOut := true
    pingOk := true }

/-- A world for `run_connectivity_test` where provisioning and SSH both
succeed but every remote verification command exits with status 1. -/
def failingCheckSingleEnv : SingleEnv :=
  { timeoutSingleEnv with
    createTimesOut := false
    exec := fun _ => { stdout := "", stderr := "command failed", exit_code := 1 } }

/-! ### Helper lemmas -/

/-- One failing, non-final iteration of the `connect` retry loop: the
outcome is that of the remaining iterations, with one more attempt made. -/
theorem connectLoop_cons_fail (f : SSHAttempts) (retries attempt : Nat)
    (rest : List Nat) (e : String) (hf : f attempt = some e)
    (hb : (attempt == retries - 1) = false) :
    connectLoop f retries (attempt :: rest) =
      ((connectLoop f retries rest).1, (connectLoop f retries rest).2 + 1) := by
  simp only [connectLoop, hf, hb]
  simp

/-- All-failures run of the `SSHDriver.connect` retry loop over a
contiguous index range ending at `retries`: every attempt is made and the
final one raises the counted `ConnectionError`. -/
theorem connectLoop_all_fail (msgs : Nat → String) (retries : Nat) :
    ∀ (n a : Nat), a + n = retries → 0 < n →
      connectLoop (fun i => some (msgs i)) retries (List.range' a n) =
        (.error ("Failed to connect after " ++ toString retries ++
          " attempts: " ++ msgs (retries - 1)), n) := by
  intro n
  induction n with
  | zero => intro a _ hn; exact absurd hn (by omega)
  | succ k ih =>
    intro a ha _
    rw [List.range'_succ]
    cases k with
    | zero =>
      obtain rfl : a = retries - 1 := by omega
      simp [connectLoop]
    | succ k' =>
      have hb : (a == retries - 1) = false := by
        have h2 : a ≠ retries - 1 := by omega
        simpa using h2
      rw [connectLoop_cons_fail _ _ _ _ (msgs a) rfl hb,
        ih (a + 1) (by omega) (by omega)]

/-- In-place image overrides never change an object's `name`. -/
theorem setImage_getElem?_name (h : TargetHeap) (r : Nat) (img : String) (i : Nat) :
    ((h.setImage r img).store[i]?).map (·.name) = (h.store[i]?).map (·.name) := by
  unfold TargetHeap.setImage
  cases hr : h.store[r]? with
  | none =>
    rw [List.set_eq_of_length_le (List.getElem?_eq_none_iff.mp hr)]
  | some t =>
    rw [List.getElem?_set]
    by_cases hri : r = i
    · obtain ⟨hlt, hget⟩ := List.getElem?_eq_some_iff.mp hr
      subst hri
      simp [hlt, hr, ← hget]
    · simp [hri]

/-- The snapshot-override loop never changes any object's `name`. -/
theorem applySnapshots_getElem?_name (snaps : List (String × String)) :
    ∀ (rs : List Nat) (h : TargetHeap) (i : Nat),
      (((OSMatrix.applySnapshots snaps rs h).store[i]?).map (·.name)) =
        ((h.store[i]?).map (·.name)) := by
  intro rs
  induction rs with
  | nil => intro h i; rfl
  | cons r rs ih =>
    intro h i
    unfold OSMatrix.applySnapshots
    cases hd : h.deref r with
    | none => simp only [hd]; exact ih h i
    | some t =>
      cases hl : snaps.lookup t.name with
      | none => simp only [hd, hl]; exact ih h i
      | some img =>
        simp only [hd, hl]
        rw [ih]
        exact setImage_getElem?_name h r img i

/-- However a catalog is constructed over the pristine heap, looking up
`"ubuntu-24-04"` succeeds: overrides touch only `image` fields. -/
theorem osmatrix_get_ubuntu (snaps : Option (List (String × String))) :
    ∃ t, (OSMatrix.init TargetHeap.initial snaps).1.get
        (OSMatrix.init TargetHeap.initial snaps).2 "ubuntu-24-04" = some t := by
  cases snaps with
  | none => exact ⟨_, rfl⟩
  | some m =>
    have h0 := applySnapshots_getElem?_name m DEFAULT_TARGETS TargetHeap.initial 0
    rw [show ((TargetHeap.initial.store[0]?).map (·.name)) = some "ubuntu-24-04"
      from rfl] at h0
    obtain ⟨t, ht, hname⟩ := Option.map_eq_some'.mp h0
    refine ⟨t, ?_⟩
    show OSMatrix.findTarget _ "ubuntu-24-04" DEFAULT_TARGETS = some t
    rw [show DEFAULT_TARGETS = 0 :: [1, 2, 3, 4, 5] from rfl]
    unfold OSMatrix.findTarget
    simp [TargetHeap.deref, OSMatrix.init, ht, hname]

/-- `failed == 0` in a runner's exit-code computation
(`failed = len(results) - passed`) says exactly that every recorded check
passed. -/
theorem failed_zero_iff_all (l : List CheckResult) :
    l.length - l.countP (·.passed) = 0 ↔ l.all (·.passed) = true := by
  rw [Nat.sub_eq_zero_iff_le, List.all_eq_true]
  constructor
  · intro hle
    exact List.countP_eq_length.mp
      (Nat.le_antisymm (List.countP_le_length _) hle)
  · intro hall
    exact Nat.le_of_eq (List.countP_eq_length.mpr hall).symm

/-! ### Claim theorems -/

/-- C3: a `CostGuard` constructed with `max_droplets = 1` (environment
variables unset) allows a droplet before any `record_droplet` call and
refuses immediately after exactly one; in general each `record_droplet`
increments the counter by exactly 1 (so it is never decremented), and
`check_droplet_limit` holds exactly while the count is strictly below the
configured maximum. -/
theorem costGuard_limit_behaviour :
    (CostGuard.init ⟨none, none⟩ 1 30).check_droplet_limit = true ∧
    ((CostGuard.init ⟨none, none⟩ 1 30).record_droplet).check_droplet_limit = false ∧
    (∀ g : CostGuard, (g.record_droplet)._droplets_created = g._droplets_created + 1) ∧
    (∀ g : CostGuard, g.check_droplet_limit = true ↔
      g._droplets_created < g.max_droplets) :=
  ⟨by decide, by decide, fun _ => rfl,
    fun g => by simp [CostGuard.check_droplet_limit]⟩

/-- C4: `__post_init__` re-reads `MAX_TEST_DROPLETS` and
`MAX_SESSION_MINUTES` after field initialization, so set environment
variables silently override even explicitly passed limits:
`CostGuard(max_droplets=1)` ends up with the environment value, not 1. -/
theorem costGuard_env_overrides :
    ∀ (v w m n : Int),
      (CostGuard.init ⟨some v, some w⟩ m n).max_droplets = v ∧
      (CostGuard.init ⟨some v, some w⟩ m n).max_session_minutes = w ∧
      (CostGuard.init ⟨some v, none⟩ 1 n).max_droplets = v ∧
      (CostGuard.init ⟨none, none⟩ m n).max_droplets = m ∧
      (CostGuard.init ⟨none, none⟩ m n).max_session_minutes = n ∧
      (CostGuard.init ⟨some 5, none⟩ 1 60).max_droplets ≠ 1 :=
  fun _ _ _ _ => ⟨rfl, rfl, rfl, rfl, rfl, by decide⟩

/-- C6: for `retries ≥ 1`, when every authentication attempt fails,
`SSHDriver.connect` makes exactly `retries` attempts and raises a
`ConnectionError` whose message embeds that attempt count. -/
theorem connect_exhausts_retries (msgs : Nat → String) (retries : Nat)
    (h : 1 ≤ retries) :
    SSHDriver.connect (fun i => some (msgs i)) retries =
      (.error ("Failed to connect after " ++ toString retries ++
        " attempts: " ++ msgs (retries - 1)), retries) := by
  unfold SSHDriver.connect
  rw [List.range_eq_range']
  exact connectLoop_all_fail msgs retries retries 0 (by omega) h

/-- Witness for C6 at `retries = 3` with every attempt failing. -/
theorem connect_exhausts_retries_witness :
    1 ≤ 3 ∧
    SSHDriver.connect (fun _ => some "auth refused") 3 =
      (.error "Failed to connect after 3 attempts: auth refused", 3) :=
  ⟨by decide, connect_exhausts_retries (fun _ => "auth refused") 3 (by decide)⟩

/-- C5: `destroy` called with a string matching neither the name nor the
id of any provider-known droplet returns without destroying anything and
without raising — a silent no-op. -/
theorem destroy_unknown_string_noop (st : ControllerState) (s : String)
    (h : ∀ d ∈ st.provider, d.name ≠ s ∧ toString d.id ≠ s) :
    DropletController.destroyStr st s = (st, []) := by
  unfold DropletController.destroyStr
  have hf : st.provider.find? (fun d => d.name == s || toString d.id == s) = none := by
    rw [List.find?_eq_none]
    intro d hd
    simp only [Bool.or_eq_true, beq_iff_eq, not_or]
    exact h d hd
  rw [hf]

/-- Witness for C5: a provider holding one droplet named `web-1` with id
7, destroyed by the unknown identifier `gone`. -/
theorem destroy_unknown_string_noop_witness :
    (∀ d ∈ (⟨[], [⟨7, "web-1"⟩], 8⟩ : ControllerState).provider,
        d.name ≠ "gone" ∧ toString d.id ≠ "gone") ∧
    DropletController.destroyStr ⟨[], [⟨7, "web-1"⟩], 8⟩ "gone" =
      (⟨[], [⟨7, "web-1"⟩], 8⟩, []) :=
  ⟨by decide, destroy_unknown_string_noop _ _ (by decide)⟩

/-- C9: `create` appends the new droplet to `_tracked_droplets` before
the wait-for-active poll, so on a provisioning `TimeoutError` the
instance is already tracked and a subsequent `cleanup()` still attempts
to destroy it. -/
theorem create_tracked_despite_timeout (st : ControllerState) (name : String)
    (destroyFails : Nat → Bool) :
    (DropletController.create st name true false).1 =
      .error (.timeout ("Droplet " ++ name ++ " did not become active")) ∧
    (⟨st.nextId, name⟩ : Droplet) ∈
      (DropletController.create st name true false).2.tracked ∧
    st.nextId ∈
      (DropletController.cleanup (DropletController.create st name true false).2
        destroyFails).2 := by
  refine ⟨rfl, ?_, ?_⟩
  · simp [DropletController.create]
  · simp [DropletController.create, DropletController.cleanup]

/-- C7: a catalog constructed with the snapshot override
`{"ubuntu-24-04": "snap-123"}` yields `get("ubuntu-24-04").image ==
"snap-123"` while `get("debian-12").image` keeps its built-in default
`debian-12-x64`. -/
theorem osmatrix_override_scenario :
    (((OSMatrix.init TargetHeap.initial (some [("ubuntu-24-04", "snap-123")])).1.get
        (OSMatrix.init TargetHeap.initial (some [("ubuntu-24-04", "snap-123")])).2
        "ubuntu-24-04").map (·.image) = some "snap-123") ∧
    (((OSMatrix.init TargetHeap.initial (some [("ubuntu-24-04", "snap-123")])).1.get
        (OSMatrix.init TargetHeap.initial (some [("ubuntu-24-04", "snap-123")])).2
        "debian-12").map (·.image) = some "debian-12-x64") := by
  exact ⟨by decide, by decide⟩

/-- C10: `OSMatrix.__init__` copies `DEFAULT_TARGETS` only shallowly, so
every instance shares the module-level `OSTarget` objects; applying a
snapshot override in one catalog mutates those shared objects, and a
catalog constructed afterwards with no snapshot file observes the
overridden image instead of the built-in default. -/
theorem osmatrix_shallow_copy_aliasing :
    (∀ (h : TargetHeap) (snaps : Option (List (String × String))),
        (OSMatrix.init h snaps).1.targets = DEFAULT_TARGETS) ∧
    (((OSMatrix.init (OSMatrix.init TargetHeap.initial
          (some [("ubuntu-24-04", "snap-123")])).2 none).1.get
        (OSMatrix.init (OSMatrix.init TargetHeap.initial
          (some [("ubuntu-24-04", "snap-123")])).2 none).2
        "ubuntu-24-04").map (·.image) = some "snap-123") ∧
    (((OSMatrix.init TargetHeap.initial none).1.get
        (OSMatrix.init TargetHeap.initial none).2 "ubuntu-24-04").map (·.image) =
      some "ubuntu-24-04-x64") := by
  refine ⟨fun h snaps => ?_, by decide, by decide⟩
  cases snaps <;> rfl

/-- C8: calling `get_or_create_ssh_key` twice with identical public-key
content returns the same record both times, the second call performs no
upload, and the two calls together upload at most once (the provider key
store is also unchanged by the second call). -/
theorem ssh_key_get_or_create_idempotent (st : KeyState) (pk name : String) :
    (get_or_create_ssh_key (get_or_create_ssh_key st pk name).2.1 pk name).1 =
      (get_or_create_ssh_key st pk name).1 ∧
    (get_or_create_ssh_key (get_or_create_ssh_key st pk name).2.1 pk name).2.2 = 0 ∧
    (get_or_create_ssh_key st pk name).2.2 +
      (get_or_create_ssh_key (get_or_create_ssh_key st pk name).2.1 pk name).2.2 ≤ 1 ∧
    (get_or_create_ssh_key (get_or_create_ssh_key st pk name).2.1 pk name).2.1 =
      (get_or_create_ssh_key st pk name).2.1 := by
  unfold get_or_create_ssh_key
  cases hf : st.keys.find? (fun k => k.public_key == pk || k.name == name) with
  | some k => simp [hf]
  | none => simp [List.find?_append, hf, List.find?_cons]

/-- C1: evaluation at the provisioning-timeout input.  In
`run_connectivity_test` the `controller.create` call (line 128) sits
*outside* the `try` whose `finally` (lines 181-191) performs the
instance-destroy and credential-revoke, so when provisioning times out
the run does NOT enter that cleanup block: the `TimeoutError` escapes
uncaught, no destroy and no key revocation is attempted, and the created
droplet stays tracked but alive.  `quick_test.main` under the identical
fault does reach its cleanup block (the tag verification query runs). -/
theorem provisioning_timeout_skips_cleanup_in_run_single :
    (run_connectivity_test timeoutSingleEnv).1 =
      .error (.timeout
        "Droplet sysadmin-ai-next-test-1700000000 did not become active") ∧
    (run_connectivity_test timeoutSingleEnv).2.dropletDestroyCalls = 0 ∧
    (run_connectivity_test timeoutSingleEnv).2.keyDestroyCalls = 0 ∧
    (run_connectivity_test timeoutSingleEnv).2.controller.tracked ≠ [] ∧
    processExitSingle timeoutSingleEnv = 1 ∧
    (quickTestMain timeoutQuickEnv).2.listByTagCalls = 1 ∧
    (quickTestMain timeoutQuickEnv).1 = .ok 1 := by
  refine ⟨rfl, rfl, rfl, by decide, rfl, rfl, rfl⟩

/-- C2 counterexample: a run of `run_connectivity_test` in which every
verification check fails still exits with code 0 — `run_connectivity_test`
returns `None` and the script never turns check results into an exit
status. -/
theorem failed_checks_still_exit_zero_in_run_single :
    (run_connectivity_test failingCheckSingleEnv).2.results ≠ [] ∧
    (run_connectivity_test failingCheckSingleEnv).2.results.all (·.passed) = false ∧
    processExitSingle failingCheckSingleEnv = 0 := by
  refine ⟨by decide, rfl, rfl⟩

/-- C2 amended: `run_comprehensive_test` exits 0 exactly when the run
completed (token present, provisioning reached active, SSH connected)
and every recorded check passed, and exits non-zero on every fatal or
failed-check run; `run_single_test` exits non-zero for missing
configuration and for fatal provisioning/connection failures, but its
exit code is independent of check outcomes: any completed run exits 0. -/
theorem exit_code_amended :
    (∀ env : CompEnv,
      processExitComp env = 0 ↔
        (env.hasToken = true ∧ env.createTimesOut = false ∧
          (SSHDriver.connect env.attemptErr 1).1 = .ok () ∧
          (runComprehensiveMain env).2.results.all (·.passed) = true)) ∧
    (∀ env : SingleEnv,
      processExitSingle env = 0 ↔
        (env.hasToken = true ∧ env.createTimesOut = false ∧
          (SSHDriver.connect env.attemptErr 20).1 = .ok ())) := by
  constructor
  · intro env
    obtain ⟨t, ht⟩ := osmatrix_get_ubuntu env.snapshots
    cases htok : env.hasToken with
    | false => simp [processExitComp, runComprehensiveMain, htok]
    | true =>
      cases hcto : env.createTimesOut with
      | true =>
        simp [processExitComp, runComprehensiveMain, compTryBody, compFinally,
          htok, hcto, ht, DropletController.create]
      | false =>
        cases hc : (SSHDriver.connect env.attemptErr 1).1 with
        | error e =>
          simp [processExitComp, runComprehensiveMain, compTryBody, compFinally,
            htok, hcto, ht, hc, DropletController.create]
        | ok u =>
          cases u
          by_cases hall : (runComprehensiveMain env).2.results.all (·.passed) = true
          · have hz := (failed_zero_iff_all ((runComprehensiveMain env).2.results)).mpr hall
            simp only [processExitComp, runComprehensiveMain, compTryBody, compFinally,
              htok, hcto, ht, hc, DropletController.create] at hz hall ⊢
            simp_all
          · have hz := hall ∘ (failed_zero_iff_all ((runComprehensiveMain env).2.results)).mp
            simp only [processExitComp, runComprehensiveMain, compTryBody, compFinally,
              htok, hcto, ht, hc, DropletController.create] at hz hall ⊢
            simp_all
  · intro env
    obtain ⟨t, ht⟩ := osmatrix_get_ubuntu env.snapshots
    cases htok : env.hasToken with
    | false => simp [processExitSingle, run_connectivity_test, htok]
    | true =>
      cases hcto : env.createTimesOut with
      | true =>
        simp [processExitSingle, run_connectivity_test, singleTryBody, singleFinally,
          htok, hcto, ht, DropletController.create]
      | false =>
        cases hc : (SSHDriver.connect env.attemptErr 20).1 with
        | error e =>
          simp [processExitSingle, run_connectivity_test, singleTryBody, singleFinally,
            htok, hcto, ht, hc, DropletController.create]
        | ok u =>
          cases u
          simp [processExitSingle, run_connectivity_test, singleTryBody, singleFinally,
            htok, hcto, ht, hc, DropletController.create]
